import Mathlib

/-!
Verification of the GKE cluster-notification message pipeline: a shallow
embedding of the envelope/attribute/payload decoders and the renderers
(`src/message.rs`, `src/message/attributes.rs`,
`src/message/attributes/payload.rs`, `src/message/slack.rs`, `src/main.rs`),
together with theorems settling the specification claims.

JSON values are modelled by an explicit inductive type; `serde_json` parsing
is modelled by an executable fuel-based parser, base64 (standard alphabet,
canonical padding) and UTF-8 decoding are modelled byte-level, and each
derived or hand-written `Deserialize` impl is translated into a function
from `Json` values.
-/

set_option maxRecDepth 10000

/-- A JSON value as produced by `serde_json`.  Number literals are kept as
raw text since no decoder in this program reads a numeric field. -/
inductive Json where
  | null
  | bool (b : Bool)
  | num (lit : String)
  | str (s : String)
  | arr (elts : List Json)
  | obj (mems : List (String × Json))

/-- Standard base64 alphabet value of a character. -/
def b64Val (c : Char) : Option Nat :=
  if 'A' ≤ c ∧ c ≤ 'Z' then some (c.toNat - 'A'.toNat)
  else if 'a' ≤ c ∧ c ≤ 'z' then some (c.toNat - 'a'.toNat + 26)
  else if '0' ≤ c ∧ c ≤ '9' then some (c.toNat - '0'.toNat + 52)
  else if c = '+' then some 62
  else if c = '/' then some 63
  else none

/-- Strict standard base64 decoding (canonical padding, zero trailing bits),
modelling `BASE64_STANDARD.decode`.  Input is consumed in blocks of four
characters; padding is allowed only in the final block. -/
def b64Blocks : List Char → Option (List Nat)
  | [] => some []
  | a :: b :: c :: d :: rest =>
    match b64Val a, b64Val b with
    | some va, some vb =>
      if c = '=' then
        if d = '=' ∧ rest = [] ∧ vb % 16 = 0 then
          some [va * 4 + vb / 16]
        else none
      else
        match b64Val c with
        | some vc =>
          if d = '=' then
            if rest = [] ∧ vc % 4 = 0 then
              some [va * 4 + vb / 16, (vb % 16) * 16 + vc / 4]
            else none
          else
            match b64Val d with
            | some vd =>
              match b64Blocks rest with
              | some tail =>
                some ((va * 4 + vb / 16) :: ((vb % 16) * 16 + vc / 4) ::
                      ((vc % 4) * 64 + vd) :: tail)
              | none => none
            | none => none
        | none => none
    | _, _ => none
  | _ => none

/-- Is `b` a UTF-8 continuation byte? -/
def utf8Cont (b : Nat) : Bool := 0x80 ≤ b ∧ b < 0xC0

/-- Strict UTF-8 decoding of a byte list (rejecting overlong encodings,
surrogates and code points above `0x10FFFF`), modelling `String::from_utf8`. -/
def utf8D : List Nat → Option (List Char)
  | [] => some []
  | b :: rest =>
    if b < 0x80 then
      (utf8D rest).map (Char.ofNat b :: ·)
    else if b < 0xC2 then none
    else if b < 0xE0 then
      match rest with
      | b2 :: rest2 =>
        if utf8Cont b2 then
          (utf8D rest2).map (Char.ofNat ((b - 0xC0) * 64 + (b2 - 0x80)) :: ·)
        else none
      | _ => none
    else if b < 0xF0 then
      match rest with
      | b2 :: b3 :: rest3 =>
        if utf8Cont b2 ∧ utf8Cont b3 ∧
            (b = 0xE0 → 0xA0 ≤ b2) ∧ (b = 0xED → b2 < 0xA0) then
          (utf8D rest3).map
            (Char.ofNat ((b - 0xE0) * 4096 + (b2 - 0x80) * 64 + (b3 - 0x80)) :: ·)
        else none
      | _ => none
    else if b < 0xF5 then
      match rest with
      | b2 :: b3 :: b4 :: rest4 =>
        if utf8Cont b2 ∧ utf8Cont b3 ∧ utf8Cont b4 ∧
            (b = 0xF0 → 0x90 ≤ b2) ∧ (b = 0xF4 → b2 < 0x90) then
          (utf8D rest4).map
            (Char.ofNat ((b - 0xF0) * 262144 + (b2 - 0x80) * 4096 +
                         (b3 - 0x80) * 64 + (b4 - 0x80)) :: ·)
        else none
      | _ => none
    else none

/-- Base64 decode followed by UTF-8 decode: the body-decoding pipeline of
the envelope's `data` field. -/
def b64Utf8 (s : String) : Option String :=
  (b64Blocks s.data).bind fun bytes => (utf8D bytes).map fun cs => String.mk cs

/-- Skip JSON insignificant whitespace. -/
def skipWs : List Char → List Char
  | c :: rest =>
    if c = ' ' ∨ c = '\t' ∨ c = '\n' ∨ c = '\r' then skipWs rest else c :: rest
  | [] => []

/-- Hex digit value. -/
def hexVal (c : Char) : Option Nat :=
  if '0' ≤ c ∧ c ≤ '9' then some (c.toNat - '0'.toNat)
  else if 'a' ≤ c ∧ c ≤ 'f' then some (c.toNat - 'a'.toNat + 10)
  else if 'A' ≤ c ∧ c ≤ 'F' then some (c.toNat - 'A'.toNat + 10)
  else none

/-- Parse the remainder of a JSON string literal (the opening quote already
consumed), handling escape sequences. -/
def parseStrRest : List Char → Option (List Char × List Char)
  | [] => none
  | '"' :: rest => some ([], rest)
  | '\\' :: 'u' :: h1 :: h2 :: h3 :: h4 :: rest =>
    match hexVal h1, hexVal h2, hexVal h3, hexVal h4 with
    | some v1, some v2, some v3, some v4 =>
      (parseStrRest rest).map fun (cs, r) =>
        (Char.ofNat (v1 * 4096 + v2 * 256 + v3 * 16 + v4) :: cs, r)
    | _, _, _, _ => none
  | '\\' :: e :: rest =>
    (match e with
      | '"' => some '"'
      | '\\' => some '\\'
      | '/' => some '/'
      | 'b' => some (Char.ofNat 8)
      | 'f' => some (Char.ofNat 12)
      | 'n' => some '\n'
      | 'r' => some (Char.ofNat 13)
      | 't' => some '\t'
      | _ => none).bind fun c =>
        (parseStrRest rest).map fun (cs, r) => (c :: cs, r)
  | c :: rest =>
    if c.toNat < 0x20 then none
    else (parseStrRest rest).map fun (cs, r) => (c :: cs, r)

/-- Is `c` a character that may appear in a JSON number literal? -/
def numChar (c : Char) : Bool :=
  ('0' ≤ c ∧ c ≤ '9') ∨ c = '-' ∨ c = '+' ∨ c = '.' ∨ c = 'e' ∨ c = 'E'

/-- Parser request: a full value, object members, or array items. -/
inductive PReq where
  | val
  | members (first : Bool)
  | items (first : Bool)

/-- Parser result. -/
inductive PRes where
  | val (j : Json)
  | members (l : List (String × Json))
  | items (l : List Json)

/-- Fuel-based recursive-descent JSON parser core.  Returns the parsed
result and the unconsumed input. -/
def parseStep : Nat → PReq → List Char → Option (PRes × List Char)
  | 0, _, _ => none
  | fuel + 1, PReq.val, cs =>
    match skipWs cs with
    | '"' :: rest =>
      (parseStrRest rest).map fun (s, r) => (PRes.val (Json.str (String.mk s)), r)
    | '{' :: rest =>
      (parseStep fuel (PReq.members true) rest).bind fun (res, r) =>
        match res with
        | PRes.members l => some (PRes.val (Json.obj l), r)
        | _ => none
    | '[' :: rest =>
      (parseStep fuel (PReq.items true) rest).bind fun (res, r) =>
        match res with
        | PRes.items l => some (PRes.val (Json.arr l), r)
        | _ => none
    | 't' :: 'r' :: 'u' :: 'e' :: rest => some (PRes.val (Json.bool true), rest)
    | 'f' :: 'a' :: 'l' :: 's' :: 'e' :: rest => some (PRes.val (Json.bool false), rest)
    | 'n' :: 'u' :: 'l' :: 'l' :: rest => some (PRes.val Json.null, rest)
    | c :: rest =>
      if numChar c then
        some (PRes.val (Json.num (String.mk (c :: rest.takeWhile numChar))),
              rest.dropWhile numChar)
      else none
    | [] => none
  | fuel + 1, PReq.members first, cs =>
    match skipWs cs with
    | '}' :: rest => if first then some (PRes.members [], rest) else none
    | cs' =>
      (if first then some cs'
       else match cs' with
            | ',' :: rest => some (skipWs rest)
            | _ => none).bind fun cs'' =>
      match cs'' with
      | '"' :: rest =>
        (parseStrRest rest).bind fun (k, r1) =>
          match skipWs r1 with
          | ':' :: r2 =>
            (parseStep fuel PReq.val r2).bind fun (res, r3) =>
              match res with
              | PRes.val v =>
                (match skipWs r3 with
                 | '}' :: r4 => some (PRes.members [(String.mk k, v)], r4)
                 | ',' :: _ =>
                   (parseStep fuel (PReq.members false) (skipWs r3)).bind
                     fun (res2, r5) =>
                       match res2 with
                       | PRes.members l => some (PRes.members ((String.mk k, v) :: l), r5)
                       | _ => none
                 | _ => none)
              | _ => none
          | _ => none
      | _ => none
  | fuel + 1, PReq.items first, cs =>
    match skipWs cs with
    | ']' :: rest => if first then some (PRes.items [], rest) else none
    | cs' =>
      (if first then some cs'
       else match cs' with
            | ',' :: rest => some rest
            | _ => none).bind fun cs'' =>
      (parseStep fuel PReq.val cs'').bind fun (res, r1) =>
        match res with
        | PRes.val v =>
          (match skipWs r1 with
           | ']' :: r2 => some (PRes.items [v], r2)
           | ',' :: _ =>
             (parseStep fuel (PReq.items false) (skipWs r1)).bind fun (res2, r3) =>
               match res2 with
               | PRes.items l => some (PRes.items (v :: l), r3)
               | _ => none
           | _ => none)
        | _ => none

/-- Parse a complete JSON document, modelling `serde_json::from_str`'s
requirement that only whitespace may follow the value. -/
def parseJson (s : String) : Except String Json :=
  match parseStep (4 * (s.data.length + 1)) PReq.val s.data with
  | some (PRes.val j, rest) =>
    if skipWs rest = [] then Except.ok j else Except.error "trailing characters"
  | _ => Except.error "invalid JSON"

/-- Decidable equality for `Except` values (not provided by the core
library), used to evaluate decoder results in witnesses. -/
instance {e a : Type} [DecidableEq e] [DecidableEq a] : DecidableEq (Except e a) :=
  fun x y =>
    match x, y with
    | Except.ok v, Except.ok w =>
      if h : v = w then isTrue (by rw [h]) else isFalse (by simp [h])
    | Except.error v, Except.error w =>
      if h : v = w then isTrue (by rw [h]) else isFalse (by simp [h])
    | Except.ok _, Except.error _ => isFalse (by simp)
    | Except.error _, Except.ok _ => isFalse (by simp)

/-! ## Data model (`src/message/attributes/payload.rs`) -/

/-- The resource type (control plane / node pool) inside Upgrade* events. -/
inductive ResourceType where
  | ControlPlane
  | NodePool
  | Unknown (s : String)
deriving DecidableEq, Repr

/-- `ResourceType::default()`. -/
def ResourceType.dflt : ResourceType :=
  ResourceType.Unknown "UPGRADE_RESOURCE_TYPE_UNSPECIFIED"

/-- The release channel a cluster is subscribed to. -/
inductive ReleaseChannel where
  | Unspecified
  | Rapid
  | Regular
  | Stable
deriving DecidableEq, Repr

/-- The `Display` impl for `ReleaseChannel`. -/
def ReleaseChannel.display : ReleaseChannel → String
  | ReleaseChannel.Unspecified => "UNSPECIFIED"
  | ReleaseChannel.Rapid => "RAPID"
  | ReleaseChannel.Regular => "REGULAR"
  | ReleaseChannel.Stable => "STABLE"

/-- SecurityBulletinEvent: a notification that a security bulletin has been
posted. -/
structure SecurityBulletinEvent where
  affected_supported_minors : List String
  brief_description : String
  bulletin_id : String
  bulletin_uri : String
  cve_ids : List String
  manual_steps_required : Bool
  patched_versions : List String
  resource_type_affected : String
  severity : String
  suggested_upgrade_target : String
deriving DecidableEq, Repr

/-- `SecurityBulletinEvent::default()`. -/
def SecurityBulletinEvent.dflt : SecurityBulletinEvent :=
  ⟨[], "", "", "", [], false, [], "", "", ""⟩

/-- UpgradeAvailableEvent: sent when a new available version is released. -/
structure UpgradeAvailableEvent where
  release_channel : ReleaseChannel
  resource : Option String
  resource_type : ResourceType
  version : String
deriving DecidableEq, Repr

/-- `UpgradeAvailableEvent::default()`. -/
def UpgradeAvailableEvent.dflt : UpgradeAvailableEvent :=
  ⟨ReleaseChannel.Unspecified, none, ResourceType.dflt, ""⟩

/-- UpgradeEvent: sent when a resource is upgrading. -/
structure UpgradeEvent where
  current_version : String
  operation : String
  operation_start_time : String
  resource : Option String
  resource_type : ResourceType
  target_version : String
deriving DecidableEq, Repr

/-- `UpgradeEvent::default()`. -/
def UpgradeEvent.dflt : UpgradeEvent :=
  ⟨"", "", "", none, ResourceType.dflt, ""⟩

/-- The polymorphic notification payload. -/
inductive Payload where
  | SecurityBulletinEvent (e : SecurityBulletinEvent)
  | UpgradeAvailableEvent (e : UpgradeAvailableEvent)
  | UpgradeEvent (e : UpgradeEvent)
  | UnknownType (s : String)
  | None
deriving DecidableEq, Repr

/-- Cluster/project identity plus the typed event
(`src/message/attributes.rs`). -/
structure Attributes where
  project_id : String
  project_name : Option String
  cluster_name : String
  cluster_location : String
  type_url : String
  payload : Payload
deriving DecidableEq, Repr

/-- `Attributes::default()`. -/
def Attributes.dflt : Attributes :=
  ⟨"", none, "", "", "", Payload.None⟩

/-- The decoded envelope (`src/message.rs`). -/
structure Message where
  attributes : Attributes
  message_id : String
  publish_time : String
  data : String
deriving DecidableEq, Repr

/-- `Message::default()`. -/
def Message.dflt : Message :=
  ⟨Attributes.dflt, "", "", ""⟩

/-- The top-level inbound value (`src/message.rs`). -/
structure PubSubMessage where
  message : Message
  subscription : String
deriving DecidableEq, Repr

/-! ## Schema decoders (the `Deserialize` impls, over `Json` values) -/

/-- All values stored under key `k` of an object's member list. -/
def memsAt (mems : List (String × Json)) (k : String) : List Json :=
  (mems.filter fun kv => kv.1 = k).map fun kv => kv.2

/-- A derived-struct field access: at most one occurrence of the key
(serde errors on duplicate fields), `none` when absent. -/
def getUnique (mems : List (String × Json)) (k : String) :
    Except String (Option Json) :=
  match memsAt mems k with
  | [] => Except.ok Option.none
  | [v] => Except.ok (Option.some v)
  | _ => Except.error "duplicate field"

/-- Decode a field of a `#[serde(default)]` struct: absent means default. -/
def fieldD (mems : List (String × Json)) (k : String)
    (dec : Json → Except String α) (dflt : α) : Except String α :=
  match getUnique mems k with
  | Except.error e => Except.error e
  | Except.ok Option.none => Except.ok dflt
  | Except.ok (Option.some v) => dec v

/-- Decode a required field of a derived struct: absent is an error. -/
def fieldR (mems : List (String × Json)) (k : String)
    (dec : Json → Except String α) : Except String α :=
  match getUnique mems k with
  | Except.error e => Except.error e
  | Except.ok Option.none => Except.error "missing field"
  | Except.ok (Option.some v) => dec v

/-- `String` deserialization: only a JSON string is accepted. -/
def asString : Json → Except String String
  | Json.str s => Except.ok s
  | _ => Except.error "expected a string"

/-- `bool` deserialization. -/
def asBool : Json → Except String Bool
  | Json.bool b => Except.ok b
  | _ => Except.error "expected a boolean"

/-- `Vec<String>` deserialization. -/
def asStringList : Json → Except String (List String)
  | Json.arr l => l.mapM asString
  | _ => Except.error "expected an array"

/-- `Option<String>` deserialization: `null` is `None`. -/
def asOptString : Json → Except String (Option String)
  | Json.null => Except.ok Option.none
  | Json.str s => Except.ok (Option.some s)
  | _ => Except.error "expected a string or null"

/-- The hand-written `Deserialize` impl for `ResourceType`
(`visit_str`: `MASTER`, `NODE_POOL`, anything else kept verbatim). -/
def resourceTypeFromJson : Json → Except String ResourceType
  | Json.str s =>
    Except.ok (if s = "MASTER" then ResourceType.ControlPlane
      else if s = "NODE_POOL" then ResourceType.NodePool
      else ResourceType.Unknown s)
  | _ => Except.error "expected a string"

/-- The internally-tagged (`tag = "channel"`) derived `Deserialize` impl
for `ReleaseChannel`: a map whose `channel` member names a variant;
an unrecognized or missing tag is a decode error. -/
def releaseChannelFromJson : Json → Except String ReleaseChannel
  | Json.obj mems =>
    match mems.lookup "channel" with
    | Option.some (Json.str s) =>
      if s = "UNSPECIFIED" then Except.ok ReleaseChannel.Unspecified
      else if s = "RAPID" then Except.ok ReleaseChannel.Rapid
      else if s = "REGULAR" then Except.ok ReleaseChannel.Regular
      else if s = "STABLE" then Except.ok ReleaseChannel.Stable
      else Except.error "unknown variant"
    | Option.some _ => Except.error "expected a string tag"
    | Option.none => Except.error "missing channel tag"
  | _ => Except.error "expected a map"

/-- Derived `Deserialize` for `SecurityBulletinEvent`
(`#[serde(default, rename_all = "camelCase")]`). -/
def sbeFromJson : Json → Except String SecurityBulletinEvent
  | Json.obj mems => do
    let asm ← fieldD mems "affectedSupportedMinors" asStringList []
    let bd ← fieldD mems "briefDescription" asString ""
    let bid ← fieldD mems "bulletinId" asString ""
    let buri ← fieldD mems "bulletinUri" asString ""
    let cves ← fieldD mems "cveIds" asStringList []
    let msr ← fieldD mems "manualStepsRequired" asBool false
    let pv ← fieldD mems "patchedVersions" asStringList []
    let rta ← fieldD mems "resourceTypeAffected" asString ""
    let sev ← fieldD mems "severity" asString ""
    let sut ← fieldD mems "suggestedUpgradeTarget" asString ""
    Except.ok ⟨asm, bd, bid, buri, cves, msr, pv, rta, sev, sut⟩
  | _ => Except.error "expected a map"

/-- Derived `Deserialize` for `UpgradeAvailableEvent`
(`#[serde(default, rename_all = "camelCase")]`). -/
def uaeFromJson : Json → Except String UpgradeAvailableEvent
  | Json.obj mems => do
    let rc ← fieldD mems "releaseChannel" releaseChannelFromJson ReleaseChannel.Unspecified
    let res ← fieldD mems "resource" asOptString Option.none
    let rt ← fieldD mems "resourceType" resourceTypeFromJson ResourceType.dflt
    let v ← fieldD mems "version" asString ""
    Except.ok ⟨rc, res, rt, v⟩
  | _ => Except.error "expected a map"

/-- Derived `Deserialize` for `UpgradeEvent`
(`#[serde(default, rename_all = "camelCase")]`). -/
def ueFromJson : Json → Except String UpgradeEvent
  | Json.obj mems => do
    let cv ← fieldD mems "currentVersion" asString ""
    let op ← fieldD mems "operation" asString ""
    let ost ← fieldD mems "operationStartTime" asString ""
    let res ← fieldD mems "resource" asOptString Option.none
    let rt ← fieldD mems "resourceType" resourceTypeFromJson ResourceType.dflt
    let tv ← fieldD mems "targetVersion" asString ""
    Except.ok ⟨cv, op, ost, res, rt, tv⟩
  | _ => Except.error "expected a map"

/-- `serde_json::from_str::<SecurityBulletinEvent>`. -/
def sbe_from_str (s : String) : Except String SecurityBulletinEvent :=
  parseJson s >>= sbeFromJson

/-- `serde_json::from_str::<UpgradeAvailableEvent>`. -/
def uae_from_str (s : String) : Except String UpgradeAvailableEvent :=
  parseJson s >>= uaeFromJson

/-- `serde_json::from_str::<UpgradeEvent>`. -/
def ue_from_str (s : String) : Except String UpgradeEvent :=
  parseJson s >>= ueFromJson

/-- The payload dispatch of `AttributesVisitor::visit_map`
(`src/message/attributes.rs`, lines 194-217): select the `Payload` variant
from `type_url` alone, decoding the payload string as the matching schema
for the three known type URLs. -/
def decodePayload (type_url payload : String) : Except String Payload :=
  if type_url = "type.googleapis.com/google.container.v1beta1.SecurityBulletinEvent" then
    (sbe_from_str payload).map Payload.SecurityBulletinEvent
  else if type_url = "type.googleapis.com/google.container.v1beta1.UpgradeAvailableEvent" then
    (uae_from_str payload).map Payload.UpgradeAvailableEvent
  else if type_url = "type.googleapis.com/google.container.v1beta1.UpgradeEvent" then
    (ue_from_str payload).map Payload.UpgradeEvent
  else if payload = "" then Except.ok Payload.None
  else Except.ok (Payload.UnknownType payload)

/-- One step of `AttributesVisitor::visit_map`'s field loop: the five
accumulated raw fields (`project_id`, `cluster_name`, `cluster_location`,
`type_url`, `payload`), each key's value read as a `String`
(`next_value::<String>()`), later occurrences overwriting earlier ones,
any unknown key a decode error (the `field_identifier` enum has no
catch-all variant). -/
def attrStep (acc : Option String × Option String × Option String ×
      Option String × Option String) (kv : String × Json) :
    Except String (Option String × Option String × Option String ×
      Option String × Option String) :=
  match asString kv.2, acc with
  | Except.ok v, (pid, cn, cl, tu, pl) =>
    if kv.1 = "project_id" then Except.ok (Option.some v, cn, cl, tu, pl)
    else if kv.1 = "cluster_name" then Except.ok (pid, Option.some v, cl, tu, pl)
    else if kv.1 = "cluster_location" then Except.ok (pid, cn, Option.some v, tu, pl)
    else if kv.1 = "type_url" then Except.ok (pid, cn, cl, Option.some v, pl)
    else if kv.1 = "payload" then Except.ok (pid, cn, cl, tu, Option.some v)
    else Except.error "unknown field"
  | Except.error e, _ =>
    if kv.1 = "project_id" ∨ kv.1 = "cluster_name" ∨ kv.1 = "cluster_location" ∨
        kv.1 = "type_url" ∨ kv.1 = "payload" then Except.error e
    else Except.error "unknown field"

/-- The hand-written `Deserialize` impl for `Attributes`
(`AttributesVisitor::visit_map`): fold the map's members, default every
missing field, set `project_name` to `None`, then dispatch the payload. -/
def attributesFromJson : Json → Except String Attributes
  | Json.obj mems => do
    let (pid, cn, cl, tu, pl) ← mems.foldlM attrStep
      (Option.none, Option.none, Option.none, Option.none, Option.none)
    let project_id := pid.getD ""
    let cluster_name := cn.getD ""
    let cluster_location := cl.getD ""
    let type_url := tu.getD ""
    let payload_raw := pl.getD ""
    let payload ← decodePayload type_url payload_raw
    Except.ok ⟨project_id, Option.none, cluster_name, cluster_location, type_url, payload⟩
  | _ => Except.error "expected a map"

/-- `from_base64` (`src/message.rs`, lines 44-52): deserialize a `String`,
base64-decode it, then require the bytes to be valid UTF-8. -/
def from_base64 (j : Json) : Except String String :=
  match asString j with
  | Except.error e => Except.error e
  | Except.ok s =>
    match b64Utf8 s with
    | Option.some t => Except.ok t
    | Option.none => Except.error "invalid base64 or UTF-8"

/-- Derived `Deserialize` for `Message` (`#[serde(default)]`, unknown keys
ignored, `data` decoded through `from_base64`). -/
def messageFromJson : Json → Except String Message
  | Json.obj mems => do
    let attributes ← fieldD mems "attributes" attributesFromJson Attributes.dflt
    let message_id ← fieldD mems "message_id" asString ""
    let publish_time ← fieldD mems "publish_time" asString ""
    let data ← fieldD mems "data" from_base64 ""
    Except.ok ⟨attributes, message_id, publish_time, data⟩
  | _ => Except.error "expected a map"

/-- Derived `Deserialize` for `PubSubMessage`: both `message` and
`subscription` are required. -/
def pubSubMessageFromJson : Json → Except String PubSubMessage
  | Json.obj mems => do
    let message ← fieldR mems "message" messageFromJson
    let subscription ← fieldR mems "subscription" asString
    Except.ok ⟨message, subscription⟩
  | _ => Except.error "expected a map"

/-- `serde_json::from_str::<Message>`. -/
def decodeMessage (s : String) : Except String Message :=
  parseJson s >>= messageFromJson

/-- `serde_json::from_str::<PubSubMessage>` (the request-boundary decode). -/
def decodePubSubMessage (s : String) : Except String PubSubMessage :=
  parseJson s >>= pubSubMessageFromJson

/-! ## Operations (`Attributes`, `Message`, slack rendering, handler) -/

/-- The characters after the first occurrence of `pat` in the input
(`str::split_once`, keeping only the suffix). -/
def subAfter (pat : List Char) : List Char → Option (List Char)
  | [] => Option.none
  | c :: rest =>
    if pat.isPrefixOf (c :: rest) then Option.some ((c :: rest).drop pat.length)
    else subAfter pat rest

/-- `UpgradeAvailableEvent::node_pool_name`: the part of `resource` after
`nodePools/`, when present. -/
def UpgradeAvailableEvent.node_pool_name (p : UpgradeAvailableEvent) : Option String :=
  p.resource.bind fun r => (subAfter "nodePools/".data r.data).map fun cs => String.mk cs

/-- `UpgradeEvent::node_pool_name`. -/
def UpgradeEvent.node_pool_name (p : UpgradeEvent) : Option String :=
  p.resource.bind fun r => (subAfter "nodePools/".data r.data).map fun cs => String.mk cs

/-- `Attributes::with_project_name`: functional update of `project_name`. -/
def Attributes.with_project_name (a : Attributes) (n : String) : Attributes :=
  { a with project_name := Option.some n }

/-- `Attributes::project_name()`: the override when present, else
`project_id`. -/
def Attributes.projectName (a : Attributes) : String :=
  a.project_name.getD a.project_id

/-- The node-pool `resource` sub-path consulted by
`Attributes::resource_uri` (`NodePool`-typed Upgrade* events only). -/
def Attributes.node_pool_resource (a : Attributes) : Option String :=
  match a.payload with
  | Payload.UpgradeAvailableEvent p =>
    match p.resource_type with
    | ResourceType.NodePool => p.resource
    | _ => Option.none
  | Payload.UpgradeEvent p =>
    match p.resource_type with
    | ResourceType.NodePool => p.resource
    | _ => Option.none
  | _ => Option.none

/-- The synthesized cluster path used as `resource_uri`'s fallback. -/
def Attributes.synthesized_uri (a : Attributes) : String :=
  "projects/" ++ a.projectName ++ "/locations/" ++ a.cluster_location ++
    "/clusters/" ++ a.cluster_name

/-- `Attributes::resource_uri`. -/
def Attributes.resource_uri (a : Attributes) : String :=
  match a.node_pool_resource with
  | Option.some r => r
  | Option.none => a.synthesized_uri

/-- The node-pool name consulted by `Attributes::resource_url`. -/
def Attributes.node_pool_url_name (a : Attributes) : Option String :=
  match a.payload with
  | Payload.UpgradeAvailableEvent p =>
    match p.resource_type with
    | ResourceType.NodePool => p.node_pool_name
    | _ => Option.none
  | Payload.UpgradeEvent p =>
    match p.resource_type with
    | ResourceType.NodePool => p.node_pool_name
    | _ => Option.none
  | _ => Option.none

/-- `Attributes::resource_url`: the console deep-link. -/
def Attributes.resource_url (a : Attributes) : String :=
  match a.node_pool_url_name with
  | Option.some node_pool_name =>
    "https://console.cloud.google.com/kubernetes/nodepool/" ++
      a.cluster_location ++ "/" ++ a.cluster_name ++ "/" ++ node_pool_name ++
      "?project=" ++ a.projectName
  | Option.none =>
    "https://console.cloud.google.com/kubernetes/clusters/details/" ++
      a.cluster_location ++ "/" ++ a.cluster_name ++ "?project=" ++ a.projectName

/-- `Attributes::is_node_pool_upgrade_available_event`. -/
def Attributes.is_node_pool_upgrade_available_event (a : Attributes) : Bool :=
  match a.payload with
  | Payload.UpgradeAvailableEvent p =>
    match p.resource_type with
    | ResourceType.NodePool => true
    | _ => false
  | _ => false

/-- `Attributes::log_message` (`src/message/attributes.rs`, lines 22-68). -/
def Attributes.log_message (a : Attributes) : Except String String :=
  match a.payload with
  | Payload.SecurityBulletinEvent p =>
    Except.ok ("Security bulletin " ++ p.bulletin_id ++ " affecting " ++
      a.resource_uri ++ " has been issued")
  | Payload.UpgradeAvailableEvent p =>
    match p.resource_type with
    | ResourceType.ControlPlane =>
      Except.ok ("Control plane " ++ a.resource_uri ++ " has new version " ++
        p.version ++ " available for upgrade in the " ++
        p.release_channel.display ++ " channel")
    | ResourceType.NodePool =>
      Except.ok ("Node pool " ++ a.resource_uri ++ " has new version " ++
        p.version ++ " available for upgrade in the " ++
        p.release_channel.display ++ " channel")
    | ResourceType.Unknown s =>
      Except.ok ("Unknown resource type `" ++ s ++ "` encountered")
  | Payload.UpgradeEvent p =>
    match p.resource_type with
    | ResourceType.ControlPlane =>
      Except.ok ("Control plane " ++ a.resource_uri ++
        " is upgrading from version " ++ p.current_version ++ " to " ++
        p.target_version)
    | ResourceType.NodePool =>
      Except.ok ("Node pool " ++ a.resource_uri ++ " is upgrading from " ++
        p.current_version ++ " to " ++ p.target_version)
    | ResourceType.Unknown s =>
      Except.ok ("Unknown resource type `" ++ s ++ "` encountered")
  | Payload.UnknownType _ =>
    Except.error ("Unknown message type `" ++ a.type_url ++ "` encountered")
  | Payload.None => Except.error "Empty or invalid payload"

/-- `Message::with_project_name`. -/
def Message.with_project_name (m : Message) (n : String) : Message :=
  { m with attributes := m.attributes.with_project_name n }

/-- `Message::fmt` (`src/message.rs`, lines 30-41): the log-entry
projection. -/
def Message.fmt (m : Message) : String :=
  match m.attributes.log_message with
  | Except.ok msg => msg
  | Except.error err =>
    if m.data = "" then err else err ++ ": " ++ m.data

/-- `SlackMessage::slack_plain_text` for `Message`
(`src/message/slack.rs`, lines 28-70). -/
def Message.slack_plain_text (m : Message) : String :=
  match m.attributes.payload with
  | Payload.SecurityBulletinEvent p =>
    ":gear: Security bulletin " ++ p.bulletin_id ++ " affecting " ++
      m.attributes.cluster_name ++ " has been issued"
  | Payload.UpgradeAvailableEvent p =>
    match p.resource_type with
    | ResourceType.ControlPlane =>
      ":gear: " ++ m.attributes.cluster_name ++
        " control plane has new version available " ++ p.version
    | ResourceType.NodePool =>
      ":gear: " ++ m.attributes.cluster_name ++ " node pool " ++
        (p.node_pool_name.getD "") ++ " has new version available " ++ p.version
    | ResourceType.Unknown s =>
      ":gear: " ++ m.attributes.cluster_name ++ " unknown resource type " ++ s
  | Payload.UpgradeEvent p =>
    match p.resource_type with
    | ResourceType.ControlPlane =>
      ":gear: " ++ m.attributes.cluster_name ++
        " control plane is upgrading to version " ++ p.target_version
    | ResourceType.NodePool =>
      ":gear: " ++ m.attributes.cluster_name ++ " node pool " ++
        (p.node_pool_name.getD "") ++ " is upgrading to version " ++
        p.target_version
    | ResourceType.Unknown s =>
      ":gear: " ++ m.attributes.cluster_name ++ " unknown resource type " ++ s
  | Payload.UnknownType _ =>
    ":gear: " ++ m.attributes.cluster_name ++ " received event of unknown type"
  | Payload.None => ":gear: empty or invalid payload"

/-- The observable outcome of one `handler` invocation: whether the
Notifier (webhook POST) was invoked, and the log line that was emitted. -/
structure HandlerTrace where
  notifier_called : Bool
  log_entry : String
deriving DecidableEq, Repr

/-- The request handler (`src/main.rs`, lines 55-99), modelled as a pure
function of its environment: the optional `GCP_PROJECT` override, the
optional `SLACK_WEBHOOK` destination, and the `is_invalid` predicate
consulted for the early error return (its definition lives outside the
decode-and-render core; it is kept abstract here, so every theorem below
holds for any such predicate).  The webhook POST inside the
`SLACK_WEBHOOK` block is guarded only by the node-pool
`UpgradeAvailableEvent` filter; every branch logs the message's log-entry
projection. -/
def handler (gcp_project slack_webhook : Option String)
    (is_invalid : Message → Bool) (psm : PubSubMessage) : HandlerTrace :=
  let message := match gcp_project with
    | Option.some n => psm.message.with_project_name n
    | Option.none => psm.message
  let log_entry := message.fmt
  if is_invalid message then
    ⟨false, log_entry⟩
  else if slack_webhook.isSome ∧
      ¬ message.attributes.is_node_pool_upgrade_available_event then
    ⟨true, log_entry⟩
  else
    ⟨false, log_entry⟩

/-! ## Helper lemmas and substring machinery -/

/-- Boolean prefix test on character lists. -/
def isPrefB : List Char → List Char → Bool
  | [], _ => true
  | _ :: _, [] => false
  | a :: as, b :: bs => a == b && isPrefB as bs

/-- Boolean infix test on character lists. -/
def infixOfB (pat : List Char) : List Char → Bool
  | [] => pat.isEmpty
  | c :: rest => isPrefB pat (c :: rest) || infixOfB pat rest

/-- Does the string `s` contain `sub` as a contiguous substring? -/
def strContainsB (s sub : String) : Bool := infixOfB sub.data s.data

theorem isPrefB_self_append (l t : List Char) : isPrefB l (l ++ t) = true := by
  induction l with
  | nil => rfl
  | cons c cs ih =>
    show (c == c && isPrefB cs (cs ++ t)) = true
    rw [ih]
    simp

theorem infixOfB_append (mid pre suf : List Char) :
    infixOfB mid (pre ++ mid ++ suf) = true := by
  induction pre with
  | nil =>
    cases mid with
    | nil =>
      cases suf with
      | nil => rfl
      | cons c cs => rfl
    | cons c cs =>
      show (isPrefB (c :: cs) (c :: (cs ++ suf)) || infixOfB (c :: cs) (cs ++ suf)) = true
      have h2 : isPrefB (c :: cs) (c :: (cs ++ suf)) = true := by
        show (c == c && isPrefB cs (cs ++ suf)) = true
        rw [isPrefB_self_append]
        simp
      rw [h2, Bool.true_or]
  | cons c cs ih =>
    show (isPrefB mid (c :: (cs ++ mid ++ suf)) || infixOfB mid (cs ++ mid ++ suf)) = true
    rw [ih, Bool.or_true]

theorem strContainsB_of_eq (s pre mid suf : String)
    (h : s = pre ++ (mid ++ suf)) : strContainsB s mid = true := by
  subst h
  obtain ⟨a⟩ := pre
  obtain ⟨b⟩ := mid
  obtain ⟨c⟩ := suf
  show infixOfB b (a ++ (b ++ c)) = true
  rw [← List.append_assoc]
  exact infixOfB_append b a c

theorem str_append_assoc (a b c : String) : a ++ b ++ c = a ++ (b ++ c) := by
  obtain ⟨x⟩ := a
  obtain ⟨y⟩ := b
  obtain ⟨z⟩ := c
  show String.mk (x ++ y ++ z) = String.mk (x ++ (y ++ z))
  rw [List.append_assoc]

/-- `with_project_name` does not change the payload, so the node-pool
upgrade-available test is unchanged by the overlay. -/
theorem with_project_name_is_npuae (m : Message) (n : String) :
    (m.with_project_name n).attributes.is_node_pool_upgrade_available_event =
      m.attributes.is_node_pool_upgrade_available_event := rfl

/-! ## Claim theorems -/

/-- C1: Payload decoding dispatches on `type_url` alone: each of the three
known `type_url` strings decodes the payload string as the matching
schema's JSON and wraps it in the matching `Payload` variant; any other
`type_url` yields `Payload.None` for an empty payload string and
`Payload.UnknownType` carrying the payload text verbatim otherwise. -/
theorem payload_dispatch (turl p : String) :
    (turl = "type.googleapis.com/google.container.v1beta1.SecurityBulletinEvent" →
      decodePayload turl p = (sbe_from_str p).map Payload.SecurityBulletinEvent) ∧
    (turl = "type.googleapis.com/google.container.v1beta1.UpgradeAvailableEvent" →
      decodePayload turl p = (uae_from_str p).map Payload.UpgradeAvailableEvent) ∧
    (turl = "type.googleapis.com/google.container.v1beta1.UpgradeEvent" →
      decodePayload turl p = (ue_from_str p).map Payload.UpgradeEvent) ∧
    (turl ≠ "type.googleapis.com/google.container.v1beta1.SecurityBulletinEvent" →
      turl ≠ "type.googleapis.com/google.container.v1beta1.UpgradeAvailableEvent" →
      turl ≠ "type.googleapis.com/google.container.v1beta1.UpgradeEvent" →
      decodePayload turl p =
        if p = "" then Except.ok Payload.None
        else Except.ok (Payload.UnknownType p)) := by
  refine ⟨fun h => ?_, fun h => ?_, fun h => ?_, fun h1 h2 h3 => ?_⟩
  · subst h; simp [decodePayload]
  · subst h; rw [decodePayload, if_neg (by decide), if_pos rfl]
  · subst h; rw [decodePayload, if_neg (by decide), if_neg (by decide), if_pos rfl]
  · rw [decodePayload, if_neg h1, if_neg h2, if_neg h3]

/-- Witness for C1: a type URL outside the dispatch table with a non-empty
payload yields `Payload.UnknownType` verbatim. -/
theorem payload_dispatch_witness :
    decodePayload "some.other/type" "raw text" =
      Except.ok (Payload.UnknownType "raw text") := by
  have h := (payload_dispatch "some.other/type" "raw text").2.2.2
    (by decide) (by decide) (by decide)
  simpa using h

/-- The round-trip envelope literal of C2. -/
def c2json : String :=
  "\x7b\"attributes\":\x7b\"project_id\":\"0123456789\",\"cluster_name\":\"test-cluster\",\"cluster_location\":\"us-central1\",\"type_url\":\"type.googleapis.com/google.container.v1beta1.UpgradeEvent\",\"payload\":\"\x7b\\\"currentVersion\\\":\\\"1.22.4-gke.1501\\\",\\\"resourceType\\\":\\\"MASTER\\\",\\\"targetVersion\\\":\\\"1.22.6-gke.300\\\"\x7d\"\x7d,\"message_id\":\"x\",\"publish_time\":\"y\",\"data\":\"TWFzdGVyIGlzIHVwZ3JhZGluZy4=\"\x7d"

/-- C2: decoding the round-trip envelope literal and rendering the
log-entry projection yields exactly the expected control-plane upgrade
line. -/
theorem upgrade_event_round_trip :
    (decodeMessage c2json).map Message.fmt =
      Except.ok "Control plane projects/0123456789/locations/us-central1/clusters/test-cluster is upgrading from version 1.22.4-gke.1501 to 1.22.6-gke.300" := by
  decide

/-- An `UpgradeEvent` whose `resource` field is present but empty. -/
def emptyResourceEvent : UpgradeEvent :=
  ⟨"1.22.4", "", "", Option.some "", ResourceType.NodePool, "1.22.6"⟩

/-- Attributes carrying `emptyResourceEvent`. -/
def emptyResourceAttrs : Attributes :=
  ⟨"p", Option.none, "c", "l", "t", Payload.UpgradeEvent emptyResourceEvent⟩

/-- Counterexample to C3: a `NodePool`-typed `UpgradeEvent` whose
`resource` field is present but empty.  The claim places this case with
the synthesized `projects/p/locations/l/clusters/c` fallback, but
`resource_uri` returns the present field verbatim, here the empty
string. -/
theorem resource_uri_empty_resource_cex :
    emptyResourceAttrs.resource_uri = "" ∧
    emptyResourceAttrs.resource_uri ≠ "projects/p/locations/l/clusters/c" := by
  decide

/-- C3 (amended): `resource_uri` returns the `resource` field verbatim for
any `NodePool`-typed Upgrade* event in which the field is present (even
when it is empty); in every other case (other variants, other resource
types, or an absent resource) it returns the synthesized
`projects/<project_name()>/locations/<cluster_location>/clusters/<cluster_name>`
string. -/
theorem resource_uri_cases (a : Attributes) :
    (∀ p r, a.payload = Payload.UpgradeAvailableEvent p →
      p.resource_type = ResourceType.NodePool → p.resource = Option.some r →
      a.resource_uri = r) ∧
    (∀ p r, a.payload = Payload.UpgradeEvent p →
      p.resource_type = ResourceType.NodePool → p.resource = Option.some r →
      a.resource_uri = r) ∧
    (∀ p, a.payload = Payload.UpgradeAvailableEvent p →
      (p.resource_type ≠ ResourceType.NodePool ∨ p.resource = Option.none) →
      a.resource_uri = a.synthesized_uri) ∧
    (∀ p, a.payload = Payload.UpgradeEvent p →
      (p.resource_type ≠ ResourceType.NodePool ∨ p.resource = Option.none) →
      a.resource_uri = a.synthesized_uri) ∧
    ((∀ p, a.payload ≠ Payload.UpgradeAvailableEvent p) →
      (∀ p, a.payload ≠ Payload.UpgradeEvent p) →
      a.resource_uri = a.synthesized_uri) := by
  refine ⟨?_, ?_, ?_, ?_, ?_⟩
  · intro p r hp hrt hr
    simp [Attributes.resource_uri, Attributes.node_pool_resource, hp, hrt, hr]
  · intro p r hp hrt hr
    simp [Attributes.resource_uri, Attributes.node_pool_resource, hp, hrt, hr]
  · intro p hp hor
    rcases hor with hne | hnone
    · cases hrt : p.resource_type with
      | NodePool => exact absurd hrt hne
      | ControlPlane =>
        simp [Attributes.resource_uri, Attributes.node_pool_resource, hp, hrt]
      | Unknown s =>
        simp [Attributes.resource_uri, Attributes.node_pool_resource, hp, hrt]
    · cases hrt : p.resource_type <;>
        simp [Attributes.resource_uri, Attributes.node_pool_resource, hp, hrt, hnone]
  · intro p hp hor
    rcases hor with hne | hnone
    · cases hrt : p.resource_type with
      | NodePool => exact absurd hrt hne
      | ControlPlane =>
        simp [Attributes.resource_uri, Attributes.node_pool_resource, hp, hrt]
      | Unknown s =>
        simp [Attributes.resource_uri, Attributes.node_pool_resource, hp, hrt]
    · cases hrt : p.resource_type <;>
        simp [Attributes.resource_uri, Attributes.node_pool_resource, hp, hrt, hnone]
  · intro h1 h2
    cases hpay : a.payload with
    | UpgradeAvailableEvent p => exact absurd hpay (h1 p)
    | UpgradeEvent p => exact absurd hpay (h2 p)
    | SecurityBulletinEvent p =>
      simp [Attributes.resource_uri, Attributes.node_pool_resource, hpay]
    | UnknownType s =>
      simp [Attributes.resource_uri, Attributes.node_pool_resource, hpay]
    | None =>
      simp [Attributes.resource_uri, Attributes.node_pool_resource, hpay]

/-- A `NodePool`-typed `UpgradeAvailableEvent` with a populated resource. -/
def nodePoolUAE : UpgradeAvailableEvent :=
  ⟨ReleaseChannel.Rapid,
    Option.some "projects/p/locations/l/clusters/c/nodePools/np",
    ResourceType.NodePool, "1.22.6"⟩

/-- Attributes carrying `nodePoolUAE`. -/
def nodePoolUAEAttrs : Attributes :=
  ⟨"p", Option.none, "c", "l",
    "type.googleapis.com/google.container.v1beta1.UpgradeAvailableEvent",
    Payload.UpgradeAvailableEvent nodePoolUAE⟩

/-- Witness for C3: the populated node-pool resource is returned
verbatim. -/
theorem resource_uri_cases_witness :
    nodePoolUAEAttrs.resource_uri =
      "projects/p/locations/l/clusters/c/nodePools/np" :=
  (resource_uri_cases nodePoolUAEAttrs).1 nodePoolUAE
    "projects/p/locations/l/clusters/c/nodePools/np" rfl rfl rfl

/-- C4: the log-entry projection equals the Ok summary of `log_message`;
on Err (`UnknownType` gives the unknown-message-type text, `None` gives
the empty-or-invalid text) the log entry is the error text with the data
appended after a colon exactly when `data` is non-empty, so every message
produces a log line. -/
theorem log_entry_projection (m : Message) :
    (∀ s, m.attributes.log_message = Except.ok s → m.fmt = s) ∧
    (∀ e, m.attributes.log_message = Except.error e →
      (m.data = "" → m.fmt = e) ∧
      (m.data ≠ "" → m.fmt = e ++ ": " ++ m.data)) ∧
    (∀ s, m.attributes.payload = Payload.UnknownType s →
      m.attributes.log_message =
        Except.error ("Unknown message type `" ++ m.attributes.type_url ++
          "` encountered")) ∧
    (m.attributes.payload = Payload.None →
      m.attributes.log_message = Except.error "Empty or invalid payload") := by
  refine ⟨?_, ?_, ?_, ?_⟩
  · intro s h; simp [Message.fmt, h]
  · intro e h
    refine ⟨fun hd => ?_, fun hd => ?_⟩
    · simp [Message.fmt, h, hd]
    · simp [Message.fmt, h, hd]
  · intro s h; simp [Attributes.log_message, h]
  · intro h; simp [Attributes.log_message, h]

/-- An envelope whose payload has an unknown type. -/
def unknownTypeMsg : Message :=
  ⟨⟨"p", Option.none, "c", "l", "T", Payload.UnknownType "z"⟩, "", "", "d"⟩

/-- Witness for C4: an unknown-type payload with non-empty data renders
the error line with the data appended. -/
theorem log_entry_projection_witness :
    unknownTypeMsg.fmt = "Unknown message type `T` encountered: d" := by
  have h := log_entry_projection unknownTypeMsg
  have he := h.2.2.1 "z" rfl
  have := (h.2.1 _ he).2 (by decide)
  exact this

/-- Does a parsed JSON object carry the given key? -/
def hasKey (j : Json) (k : String) : Bool :=
  match j with
  | Json.obj mems => mems.any fun kv => kv.1 = k
  | _ => false

/-- An envelope without any `data` field whose known-type payload is not
valid JSON. -/
def badPayloadEnvelope : String :=
  "\x7b\"attributes\":\x7b\"type_url\":\"type.googleapis.com/google.container.v1beta1.UpgradeEvent\",\"payload\":\"x\"\x7d\x7d"

/-- Counterexample to C5: an envelope with no `data` field at all still
fails to decode (a known `type_url` whose embedded payload JSON is
malformed), so envelope decoding does not fail exactly when the `data`
field is present but invalid. -/
theorem envelope_decode_cex :
    (parseJson badPayloadEnvelope).map (fun j => hasKey j "data") =
      Except.ok false ∧
    (decodeMessage badPayloadEnvelope).isOk = false := by
  decide

/-- C5 (amended): decoding the `data` field fails exactly when it is
present but is not valid base64 or its decoded bytes are not valid UTF-8
(stated for an envelope carrying only a `data` field); absent `attributes`
decodes to the default `Attributes` and absent `data` to the empty string,
so the empty envelope decodes successfully; but malformed known-type
payloads inside `attributes` can also abort the envelope decode. -/
theorem envelope_decode_amended (s : String) :
    ((messageFromJson (Json.obj [("data", Json.str s)])).toOption =
      (b64Utf8 s).map fun t => { Message.dflt with data := t }) ∧
    messageFromJson (Json.obj []) = Except.ok Message.dflt ∧
    decodeMessage "\x7b\x7d" = Except.ok Message.dflt := by
  refine ⟨?_, by decide, by decide⟩
  cases h : b64Utf8 s with
  | none =>
    simp [messageFromJson, fieldD, getUnique, memsAt, from_base64, asString, h,
      Bind.bind, Except.bind, List.filter, Except.toOption]
  | some t =>
    simp [messageFromJson, fieldD, getUnique, memsAt, from_base64, asString, h,
      Bind.bind, Except.bind, List.filter, Except.toOption, Message.dflt,
      Attributes.dflt]

/-- C6: a decoded message whose payload is a `NodePool`-typed
`UpgradeAvailableEvent` never triggers a Notifier call from the handler —
whether or not a destination webhook is configured, whatever the project
override, and for any `is_invalid` predicate — while the log-entry
rendering of the (possibly overlaid) message is still produced. -/
theorem node_pool_uae_filter (gcp slack : Option String)
    (inv : Message → Bool) (psm : PubSubMessage)
    (h : psm.message.attributes.is_node_pool_upgrade_available_event = true) :
    (handler gcp slack inv psm).notifier_called = false ∧
    (handler gcp slack inv psm).log_entry =
      (match gcp with
        | Option.some n => psm.message.with_project_name n
        | Option.none => psm.message).fmt := by
  unfold handler
  cases gcp with
  | none =>
    refine ⟨?_, ?_⟩ <;> dsimp only
    · split
      · rfl
      · rw [if_neg fun hc => hc.2 h]
    · split
      · rfl
      · split <;> rfl
  | some n =>
    have hn : (psm.message.with_project_name
        n).attributes.is_node_pool_upgrade_available_event = true := by
      rw [with_project_name_is_npuae]; exact h
    refine ⟨?_, ?_⟩ <;> dsimp only
    · split
      · rfl
      · rw [if_neg fun hc => hc.2 hn]
    · split
      · rfl
      · split <;> rfl

/-- A `PubSubMessage` carrying a node-pool `UpgradeAvailableEvent`. -/
def nodePoolPsm : PubSubMessage :=
  ⟨⟨nodePoolUAEAttrs, "id", "t", "body"⟩, "sub"⟩

/-- Witness for C6: with a webhook configured and a project override set,
the node-pool upgrade-available message is still filtered while its log
entry is rendered. -/
theorem node_pool_uae_filter_witness :
    (handler (Option.some "g") (Option.some "hook") (fun _ => false)
        nodePoolPsm).notifier_called = false ∧
    (handler (Option.some "g") (Option.some "hook") (fun _ => false)
        nodePoolPsm).log_entry =
      (nodePoolPsm.message.with_project_name "g").fmt :=
  node_pool_uae_filter (Option.some "g") (Option.some "hook")
    (fun _ => false) nodePoolPsm (by decide)

/-- C7: `with_project_name` changes only the `project_name` overlay (set to
the given name) and leaves every other field of the message unchanged;
consequently `project_name()` returns the override, derived strings that do
not consult it (the plain-text rendering, the verbatim node-pool resource
branch) are unchanged, and the strings built from `project_name()` — the
`resource_uri` fallback and both `resource_url` forms — use the override in
place of `project_id`. -/
theorem with_project_name_frame (m : Message) (n : String) :
    ((m.with_project_name n).attributes.project_name = Option.some n) ∧
    ((m.with_project_name n).attributes.project_id = m.attributes.project_id) ∧
    ((m.with_project_name n).attributes.cluster_name = m.attributes.cluster_name) ∧
    ((m.with_project_name n).attributes.cluster_location =
      m.attributes.cluster_location) ∧
    ((m.with_project_name n).attributes.type_url = m.attributes.type_url) ∧
    ((m.with_project_name n).attributes.payload = m.attributes.payload) ∧
    ((m.with_project_name n).message_id = m.message_id) ∧
    ((m.with_project_name n).publish_time = m.publish_time) ∧
    ((m.with_project_name n).data = m.data) ∧
    ((m.with_project_name n).attributes.projectName = n) ∧
    ((m.with_project_name n).slack_plain_text = m.slack_plain_text) ∧
    ((m.with_project_name n).attributes.resource_uri =
      match m.attributes.node_pool_resource with
      | Option.some r => r
      | Option.none =>
        "projects/" ++ n ++ "/locations/" ++ m.attributes.cluster_location ++
          "/clusters/" ++ m.attributes.cluster_name) ∧
    ((m.with_project_name n).attributes.resource_url =
      match m.attributes.node_pool_url_name with
      | Option.some npn =>
        "https://console.cloud.google.com/kubernetes/nodepool/" ++
          m.attributes.cluster_location ++ "/" ++ m.attributes.cluster_name ++
          "/" ++ npn ++ "?project=" ++ n
      | Option.none =>
        "https://console.cloud.google.com/kubernetes/clusters/details/" ++
          m.attributes.cluster_location ++ "/" ++ m.attributes.cluster_name ++
          "?project=" ++ n) := by
  have hn1 : (m.with_project_name n).attributes.node_pool_resource =
      m.attributes.node_pool_resource := rfl
  have hn2 : (m.with_project_name n).attributes.node_pool_url_name =
      m.attributes.node_pool_url_name := rfl
  refine ⟨rfl, rfl, rfl, rfl, rfl, rfl, rfl, rfl, rfl, rfl, rfl, ?_, ?_⟩
  · simp only [Attributes.resource_uri]
    rw [hn1]
    cases hr : m.attributes.node_pool_resource with
    | some r => rfl
    | none =>
      simp [Attributes.synthesized_uri, Attributes.projectName,
        Message.with_project_name, Attributes.with_project_name]
  · simp only [Attributes.resource_url]
    rw [hn2]
    cases hr : m.attributes.node_pool_url_name with
    | some npn =>
      simp [Attributes.projectName, Message.with_project_name,
        Attributes.with_project_name]
    | none =>
      simp [Attributes.projectName, Message.with_project_name,
        Attributes.with_project_name]

/-- Counterexample to C8: an unrecognized channel name does not decode to
`Unspecified` — it fails the whole payload decode (the internally-tagged
enum has no catch-all variant). -/
theorem release_channel_unknown_cex :
    (uae_from_str "\x7b\"releaseChannel\":\x7b\"channel\":\"FOO\"\x7d\x7d").isOk =
      false := by
  decide

/-- C8 (amended): `ReleaseChannel` decodes from a nested channel object to
`Rapid`/`Regular`/`Stable` (and `Unspecified`) for the recognized names,
and an absent `releaseChannel` field decodes to `Unspecified` without
failing; an unrecognized channel name, however, fails the payload
decode. -/
theorem release_channel_decode :
    releaseChannelFromJson (Json.obj [("channel", Json.str "RAPID")]) =
      Except.ok ReleaseChannel.Rapid ∧
    releaseChannelFromJson (Json.obj [("channel", Json.str "REGULAR")]) =
      Except.ok ReleaseChannel.Regular ∧
    releaseChannelFromJson (Json.obj [("channel", Json.str "STABLE")]) =
      Except.ok ReleaseChannel.Stable ∧
    releaseChannelFromJson (Json.obj [("channel", Json.str "UNSPECIFIED")]) =
      Except.ok ReleaseChannel.Unspecified ∧
    (∀ s, s ≠ "UNSPECIFIED" → s ≠ "RAPID" → s ≠ "REGULAR" → s ≠ "STABLE" →
      (releaseChannelFromJson (Json.obj [("channel", Json.str s)])).isOk =
        false) ∧
    uae_from_str "\x7b\x7d" = Except.ok UpgradeAvailableEvent.dflt := by
  refine ⟨by decide, by decide, by decide, by decide, ?_, by decide⟩
  intro s h1 h2 h3 h4
  simp [releaseChannelFromJson, List.lookup, h1, h2, h3, h4, Except.isOk,
    Except.toBool]

/-- Witness for C8: another unrecognized channel name also fails. -/
theorem release_channel_decode_witness :
    (releaseChannelFromJson (Json.obj [("channel", Json.str "BOGUS")])).isOk =
      false :=
  release_channel_decode.2.2.2.2.1 "BOGUS" (by decide) (by decide) (by decide)
    (by decide)

/-- A structurally invalid message (payload `None`) with a real cluster
name. -/
def invalidMsg : Message :=
  ⟨⟨"p", Option.none, "test-cluster", "l", "t", Payload.None⟩, "", "", ""⟩

/-- Counterexample to C9: for the `None` payload variant the plain-text
projection is a fixed string that does not contain the cluster name. -/
theorem plain_text_none_cex :
    invalidMsg.slack_plain_text = ":gear: empty or invalid payload" ∧
    strContainsB invalidMsg.slack_plain_text
      invalidMsg.attributes.cluster_name = false := by
  decide

/-- C9 (amended): for every message whose payload is not `None`, the
plain-text projection contains the `cluster_name` string; the `None`
variant renders a fixed invalid-payload line without it. -/
theorem plain_text_contains_cluster (m : Message)
    (h : m.attributes.payload ≠ Payload.None) :
    strContainsB m.slack_plain_text m.attributes.cluster_name = true := by
  cases hpay : m.attributes.payload with
  | SecurityBulletinEvent p =>
    refine strContainsB_of_eq _
      (":gear: Security bulletin " ++ p.bulletin_id ++ " affecting ") _
      " has been issued" ?_
    simp [Message.slack_plain_text, hpay, str_append_assoc]
  | UpgradeAvailableEvent p =>
    cases hrt : p.resource_type with
    | ControlPlane =>
      refine strContainsB_of_eq _ ":gear: " _
        (" control plane has new version available " ++ p.version) ?_
      simp [Message.slack_plain_text, hpay, hrt, str_append_assoc]
    | NodePool =>
      refine strContainsB_of_eq _ ":gear: " _
        (" node pool " ++ (p.node_pool_name.getD "") ++
          " has new version available " ++ p.version) ?_
      simp [Message.slack_plain_text, hpay, hrt, str_append_assoc]
    | Unknown s =>
      refine strContainsB_of_eq _ ":gear: " _
        (" unknown resource type " ++ s) ?_
      simp [Message.slack_plain_text, hpay, hrt, str_append_assoc]
  | UpgradeEvent p =>
    cases hrt : p.resource_type with
    | ControlPlane =>
      refine strContainsB_of_eq _ ":gear: " _
        (" control plane is upgrading to version " ++ p.target_version) ?_
      simp [Message.slack_plain_text, hpay, hrt, str_append_assoc]
    | NodePool =>
      refine strContainsB_of_eq _ ":gear: " _
        (" node pool " ++ (p.node_pool_name.getD "") ++
          " is upgrading to version " ++ p.target_version) ?_
      simp [Message.slack_plain_text, hpay, hrt, str_append_assoc]
    | Unknown s =>
      refine strContainsB_of_eq _ ":gear: " _
        (" unknown resource type " ++ s) ?_
      simp [Message.slack_plain_text, hpay, hrt, str_append_assoc]
  | UnknownType s =>
    refine strContainsB_of_eq _ ":gear: " _
      " received event of unknown type" ?_
    simp [Message.slack_plain_text, hpay, str_append_assoc]
  | None => exact absurd hpay h

/-- Witness for C9: a security-bulletin message's plain text contains its
cluster name. -/
theorem plain_text_contains_cluster_witness :
    strContainsB
      (Message.slack_plain_text
        ⟨⟨"p", Option.none, "cl-1", "l", "t",
          Payload.SecurityBulletinEvent SecurityBulletinEvent.dflt⟩,
          "", "", ""⟩)
      "cl-1" = true :=
  plain_text_contains_cluster
    ⟨⟨"p", Option.none, "cl-1", "l", "t",
      Payload.SecurityBulletinEvent SecurityBulletinEvent.dflt⟩, "", "", ""⟩
    (by decide)

/-- C10: decoding the top-level inbound JSON into `PubSubMessage` requires
both the `message` and `subscription` keys: the empty object is a decode
error, and any object without a `subscription` member fails, while every
field of the inner `Message` defaults when absent. -/
theorem pubsub_requires_fields :
    (decodePubSubMessage "\x7b\x7d").isOk = false ∧
    (∀ mems, memsAt mems "subscription" = [] →
      (pubSubMessageFromJson (Json.obj mems)).isOk = false) ∧
    messageFromJson (Json.obj []) = Except.ok Message.dflt := by
  refine ⟨by decide, ?_, by decide⟩
  intro mems h
  have hs : fieldR mems "subscription" asString = Except.error "missing field" := by
    simp [fieldR, getUnique, h]
  cases hm : fieldR mems "message" messageFromJson <;>
    simp [pubSubMessageFromJson, Bind.bind, Except.bind, hm, hs, Except.isOk,
      Except.toBool]

/-- Witness for C10: an object carrying only a `message` member fails the
request-boundary decode. -/
theorem pubsub_requires_fields_witness :
    (pubSubMessageFromJson
      (Json.obj [("message", Json.obj [])])).isOk = false :=
  pubsub_requires_fields.2.1 [("message", Json.obj [])] rfl
